import Mathlib

/-!
Shallow embedding of `src/lib/runTest.ts` (the test-launch orchestration core).

The TypeScript source exports `runTests(options)` which
1. if `options.vscodeExecutablePath` is falsy (absent or the empty string),
   overwrites that field with the path returned by the external collaborator
   `downloadAndUnzipVSCode(options.version)`;
2. dispatches on `'launchArgs' in options`: the explicit variant passes
   `options.launchArgs` verbatim to `innerRunTests`, the implicit variant
   builds an argument list (workspace first when truthy, then
   `--extensionDevelopmentPath=`, `--extensionTestsPath=`, `--locale=`,
   then `additionalLaunchArgs`);
3. `innerRunTests` spawns the executable with
   `Object.assign({}, process.env, testRunnerEnv)` as environment and wires
   four event handlers: stdout data (log unless the chunk includes
   `update#setState idle`), stderr data (log with a `Spawn Error: ` marker
   unless the chunk includes `stty: stdin`), `error` (log only), and
   `close` (reject when the code is not 0, then resolve with the code).

JavaScript objects are embedded as functions `String → JsVal`, where a key
can be absent, present with value `undefined`, or present with a string —
this is needed to model `Object.assign`, which copies own enumerable
properties of the source even when their value is `undefined`.  Promises are
embedded by collecting the ordered list of `resolve` / `reject` calls a run
performs; a promise settles with the first call.
-/

namespace VSTest

/-- A JavaScript property slot: absent, present with `undefined`, or a string. -/
inductive JsVal where
  | absent
  | undef
  | str (s : String)
  deriving DecidableEq, Repr

/-- A JavaScript object with string-or-undefined properties, as its lookup function. -/
def JsObj : Type := String → JsVal

/-- `Object.assign(target, source)` observed per key: every own property of
`source` (present keys, including those whose value is `undefined`) overwrites
the target slot; keys absent from `source` keep the target slot. -/
def objectAssign (target source : JsObj) : JsObj :=
  fun k =>
    match source k with
    | JsVal.absent => target k
    | v => v

/-- `Object.assign({}, process.env, testRunnerEnv)` from `innerRunTests`
(line 159); a missing `testRunnerEnv` argument contributes nothing. -/
def fullEnv (processEnv : JsObj) (testRunnerEnv : Option JsObj) : JsObj :=
  match testRunnerEnv with
  | none => processEnv
  | some o => objectAssign processEnv o

/-- JavaScript truthiness test for an optional string: `!x` is true exactly
when the field is absent (`undefined`) or the empty string. -/
def strFalsy : Option String → Bool
  | none => true
  | some s => s == ""

/-- `x || dflt` for an optional string field, as used in
`options.locale || 'en'`: absent or empty falls back to the default. -/
def jsOr (v : Option String) (dflt : String) : String :=
  match v with
  | none => dflt
  | some s => if s == "" then dflt else s

/-- The implicit configuration shape (`TestOptions` in the source). -/
structure TestOptions where
  vscodeExecutablePath : Option String
  version : Option String
  extensionPath : String
  testRunnerPath : String
  testRunnerEnv : Option JsObj
  testWorkspace : Option String
  additionalLaunchArgs : Option (List String)
  locale : Option String

/-- The explicit configuration shape (`ExplicitTestOptions` in the source). -/
structure ExplicitTestOptions where
  vscodeExecutablePath : Option String
  version : Option String
  launchArgs : List String
  testRunnerEnv : Option JsObj

/-- The argument of `runTests`, the union `TestOptions | ExplicitTestOptions`;
the source discriminates with `'launchArgs' in options`. -/
inductive RunTestsOptions where
  | implicit (o : TestOptions)
  | explicit (o : ExplicitTestOptions)

/-- The launch-argument list built for the implicit variant
(lines 136-147): start from the three `--…=` arguments, `unshift` the
workspace when truthy, `concat` the additional arguments when present. -/
def buildArgs (o : TestOptions) : List String :=
  let args := ["--extensionDevelopmentPath=" ++ o.extensionPath,
               "--extensionTestsPath=" ++ o.testRunnerPath,
               "--locale=" ++ jsOr o.locale "en"]
  let args2 := if strFalsy o.testWorkspace then args else o.testWorkspace.getD "" :: args
  match o.additionalLaunchArgs with
  | some extra => args2 ++ extra
  | none => args2

/-- What `cp.spawn(executable, args, { env })` receives. -/
structure SpawnCall where
  executable : String
  args : List String
  env : JsObj

/-- The spawn performed by `innerRunTests` (lines 158-160); the event
handlers it installs are embedded separately below. -/
def innerRunTests (executable : String) (args : List String)
    (testRunnerEnv : Option JsObj) (processEnv : JsObj) : SpawnCall :=
  { executable := executable, args := args, env := fullEnv processEnv testRunnerEnv }

/-- `runTests` up to the spawn boundary (lines 127-148).  `download` stands
for the external collaborator `downloadAndUnzipVSCode` and `processEnv` for
the ambient `process.env`.  The first component of the result is the caller's
options object as it stands after the call (the source assigns to
`options.vscodeExecutablePath` when it was falsy), the second the spawn. -/
def runTests (download : Option String → String) (processEnv : JsObj) :
    RunTestsOptions → RunTestsOptions × SpawnCall
  | RunTestsOptions.explicit o =>
    let o2 := if strFalsy o.vscodeExecutablePath then
                { o with vscodeExecutablePath := some (download o.version) }
              else o
    (RunTestsOptions.explicit o2,
     innerRunTests (o2.vscodeExecutablePath.getD "") o2.launchArgs o2.testRunnerEnv processEnv)
  | RunTestsOptions.implicit o =>
    let o2 := if strFalsy o.vscodeExecutablePath then
                { o with vscodeExecutablePath := some (download o.version) }
              else o
    (RunTestsOptions.implicit o2,
     innerRunTests (o2.vscodeExecutablePath.getD "") (buildArgs o2) o2.testRunnerEnv processEnv)

/-- The `vscodeExecutablePath` field of either variant. -/
def exePath : RunTestsOptions → Option String
  | RunTestsOptions.implicit o => o.vscodeExecutablePath
  | RunTestsOptions.explicit o => o.vscodeExecutablePath

/-- The `version` field of either variant. -/
def versionOf : RunTestsOptions → Option String
  | RunTestsOptions.implicit o => o.version
  | RunTestsOptions.explicit o => o.version

/-- The options object with its `vscodeExecutablePath` field blanked:
equality under `eraseExePath` says every other field is unchanged. -/
def eraseExePath : RunTestsOptions → RunTestsOptions
  | RunTestsOptions.implicit o => RunTestsOptions.implicit { o with vscodeExecutablePath := none }
  | RunTestsOptions.explicit o => RunTestsOptions.explicit { o with vscodeExecutablePath := none }

/-- A call on the promise executor's callbacks: `resolve(v)` (the close code,
a number or `null`) or `reject(msg)`. -/
inductive Settlement where
  | resolved (v : Option Int)
  | rejected (msg : String)
  deriving DecidableEq, Repr

/-- A promise settles with the first `resolve`/`reject` call performed on it;
later calls are ignored.  `none` means the promise is still pending. -/
def settleOnce (calls : List Settlement) : Option Settlement :=
  calls.head?

/-- The `close` handler (lines 180-189), as the ordered list of settlement
calls it performs: `if (code !== 0) reject('Failed')` and then, falling
through, `resolve(code)`. -/
def closeHandler (code : Option Int) : List Settlement :=
  (if code ≠ some 0 then [Settlement.rejected "Failed"] else []) ++
    [Settlement.resolved code]

/-- An event observed on the supervised child process. -/
inductive Event where
  | stdoutData (s : String)
  | stderrData (s : String)
  | errored (msg : String)
  | closed (code : Option Int)
  deriving DecidableEq, Repr

/-- Whether an event is the termination (`close`) event. -/
def isCloseEvent : Event → Bool
  | Event.closed _ => true
  | _ => false

/-- The settlement calls one event handler performs on the promise: the
stdout, stderr and `error` handlers only log (lines 162-178), the `close`
handler runs `closeHandler`. -/
def eventSettlements : Event → List Settlement
  | Event.closed code => closeHandler code
  | _ => []

/-- All settlement calls performed over a run's event sequence, in order. -/
def runSettlements : List Event → List Settlement
  | [] => []
  | e :: es => eventSettlements e ++ runSettlements es

/-- The state of `innerRunTests`'s promise after a sequence of events. -/
def promiseResult (events : List Event) : Option Settlement :=
  settleOnce (runSettlements events)

/-- `pat.isPrefixOf l` lifted to a substring test: JavaScript
`s.includes(pat)` on the underlying character lists. -/
def containsSub (pat : List Char) : List Char → Bool
  | [] => pat.isEmpty
  | c :: cs => pat.isPrefixOf (c :: cs) || containsSub pat cs

/-- JavaScript `s.includes(pat)`. -/
def jsIncludes (s pat : String) : Bool :=
  containsSub pat.data s.data

/-- The stdout data handler (lines 162-167): what reaches the log sink
(`none` when the chunk is suppressed, `some` the logged text otherwise). -/
def stdoutLog (s : String) : Option String :=
  if jsIncludes s "update#setState idle" then none else some s

/-- The stderr data handler (lines 169-174): suppressed when the chunk
includes `stty: stdin`, otherwise logged behind a `Spawn Error: ` marker. -/
def stderrLog (s : String) : Option String :=
  if jsIncludes s "stty: stdin" then none else some ("Spawn Error: " ++ s)

/-! ### Helper lemmas -/

theorem runSettlements_append (a b : List Event) :
    runSettlements (a ++ b) = runSettlements a ++ runSettlements b := by
  induction a with
  | nil => rfl
  | cons e es ih => simp [runSettlements, ih]

theorem runSettlements_eq_nil_of_no_close (events : List Event)
    (h : ∀ e ∈ events, isCloseEvent e = false) : runSettlements events = [] := by
  induction events with
  | nil => rfl
  | cons e es ih =>
    have he := h e (List.mem_cons_self e es)
    have hes : ∀ x ∈ es, isCloseEvent x = false := fun x hx => h x (List.mem_cons_of_mem e hx)
    cases e with
    | closed c => simp [isCloseEvent] at he
    | stdoutData s => simpa [runSettlements, eventSettlements] using ih hes
    | stderrData s => simpa [runSettlements, eventSettlements] using ih hes
    | errored m => simpa [runSettlements, eventSettlements] using ih hes

/-! ### Claims about the close handler and the promise (C1, C2, C3, C9) -/

/-- C1: when the termination event carries exit code exactly 0, the promise
returned by `runTests` settles resolved with value 0, whatever non-close
events (logging-only stdout/stderr/error events) preceded termination. -/
theorem exit_zero_resolves_zero (pre : List Event)
    (h : ∀ e ∈ pre, isCloseEvent e = false) :
    promiseResult (pre ++ [Event.closed (some 0)]) = some (Settlement.resolved (some 0)) := by
  unfold promiseResult
  rw [runSettlements_append, runSettlements_eq_nil_of_no_close pre h]
  rfl

/-- Witness for C1: a run with a spawn error event followed by termination
with code 0 resolves with 0. -/
theorem exit_zero_resolves_zero_witness :
    promiseResult [Event.errored "spawn failure", Event.closed (some 0)] =
      some (Settlement.resolved (some 0)) :=
  exit_zero_resolves_zero [Event.errored "spawn failure"] (by decide)

/-- C2: when the termination event carries any exit code other than 0,
including `null` for a signal-terminated process, the promise settles
rejected, never with a success value. -/
theorem exit_nonzero_rejects (pre : List Event) (code : Option Int)
    (h : ∀ e ∈ pre, isCloseEvent e = false) (hc : code ≠ some 0) :
    promiseResult (pre ++ [Event.closed code]) = some (Settlement.rejected "Failed") := by
  unfold promiseResult
  rw [runSettlements_append, runSettlements_eq_nil_of_no_close pre h]
  simp [runSettlements, eventSettlements, closeHandler, hc, settleOnce]

/-- Witness for C2: termination with exit code 1, and termination with an
unknown (`null`) code, both reject. -/
theorem exit_nonzero_rejects_witness :
    promiseResult [Event.closed (some 1)] = some (Settlement.rejected "Failed")
    ∧ promiseResult [Event.closed none] = some (Settlement.rejected "Failed") :=
  ⟨exit_nonzero_rejects [] (some 1) (by decide) (by decide),
   exit_nonzero_rejects [] none (by decide) (by decide)⟩

/-- C3: spawn/runtime error events (and data events) never settle the
promise: any run without a termination event leaves the promise pending, and
a settled promise implies a termination event occurred. -/
theorem error_events_do_not_settle (events : List Event) :
    ((∀ e ∈ events, isCloseEvent e = false) → promiseResult events = none)
    ∧ (promiseResult events ≠ none → ∃ e ∈ events, isCloseEvent e = true) := by
  have key : (∀ e ∈ events, isCloseEvent e = false) → promiseResult events = none := by
    intro h
    unfold promiseResult
    rw [runSettlements_eq_nil_of_no_close events h]
    rfl
  refine ⟨key, ?_⟩
  intro h
  by_contra hc
  push_neg at hc
  simp only [Bool.not_eq_true] at hc
  exact h (key hc)

/-- Witness for C3: two error events and a stdout chunk, no termination:
the promise is still pending. -/
theorem error_events_do_not_settle_witness :
    promiseResult [Event.errored "e1", Event.errored "e2", Event.stdoutData "out"] = none :=
  (error_events_do_not_settle [Event.errored "e1", Event.errored "e2", Event.stdoutData "out"]).1
    (by decide)

/-- C9: on a non-zero (or unknown) exit code the close handler calls both
`reject('Failed')` and, falling through, `resolve(code)`, in that order; the
one-shot promise keeps only the first call, so the observable outcome is
exactly one settlement, a rejection. -/
theorem nonzero_close_rejects_once (code : Option Int) (h : code ≠ some 0) :
    closeHandler code = [Settlement.rejected "Failed", Settlement.resolved code]
    ∧ settleOnce (closeHandler code) = some (Settlement.rejected "Failed") := by
  simp [closeHandler, h, settleOnce]

/-- Witness for C9 at exit code 1. -/
theorem nonzero_close_rejects_once_witness :
    closeHandler (some 1) = [Settlement.rejected "Failed", Settlement.resolved (some 1)]
    ∧ settleOnce (closeHandler (some 1)) = some (Settlement.rejected "Failed") :=
  nonzero_close_rejects_once (some 1) (by decide)

/-! ### Concrete fixtures used by witnesses and counterexamples -/

/-- A stand-in for the external `downloadAndUnzipVSCode` collaborator. -/
def download0 : Option String → String := fun v => "/vscache/" ++ v.getD "stable"

/-- A small ambient `process.env`. -/
def processEnv0 : JsObj := fun k =>
  if k = "PATH" then JsVal.str "/usr/bin"
  else if k = "FOO" then JsVal.str "ambient"
  else JsVal.absent

/-- An ambient environment holding only `FOO`. -/
def envFoo : JsObj := fun k => if k = "FOO" then JsVal.str "ambient" else JsVal.absent

/-- A caller-supplied test-runner environment whose `FOO` entry is present
with value `undefined`. -/
def overlayFooUndef : JsObj := fun k => if k = "FOO" then JsVal.undef else JsVal.absent

/-- An implicit request whose `testWorkspace` is given but empty. -/
def exEmptyWorkspace : TestOptions :=
  { vscodeExecutablePath := some "/usr/bin/code", version := none,
    extensionPath := "/ext", testRunnerPath := "/ext/out/test",
    testRunnerEnv := none, testWorkspace := some "",
    additionalLaunchArgs := none, locale := none }

/-- An implicit request with no executable path supplied. -/
def exNoExe : TestOptions :=
  { vscodeExecutablePath := none, version := none,
    extensionPath := "/ext", testRunnerPath := "/ext/out/test",
    testRunnerEnv := none, testWorkspace := none,
    additionalLaunchArgs := none, locale := none }

/-- An explicit request whose executable path is the empty string. -/
def exEmptyExe : ExplicitTestOptions :=
  { vscodeExecutablePath := some "", version := some "1.32.0",
    launchArgs := ["--extensionDevelopmentPath=/ext"], testRunnerEnv := none }

/-- An explicit request with a non-empty executable path. -/
def exWithExe : ExplicitTestOptions :=
  { vscodeExecutablePath := some "/usr/local/bin/code", version := none,
    launchArgs := ["--extensionDevelopmentPath=/ext"], testRunnerEnv := none }

/-! ### Claims about argument construction and dispatch (C4, C5, C10) -/

/-- C4 counterexample: an implicit request whose workspace path is given but
empty.  The claim puts the workspace path first whenever it is given, so it
predicts a list starting with the empty string; the code's truthiness test
(`if (options.testWorkspace)`) skips the `unshift`, and the built list does
not start with the workspace path. -/
theorem buildArgs_empty_workspace_counterexample :
    exEmptyWorkspace.testWorkspace = some ""
    ∧ buildArgs exEmptyWorkspace =
        ["--extensionDevelopmentPath=/ext", "--extensionTestsPath=/ext/out/test", "--locale=en"]
    ∧ buildArgs exEmptyWorkspace ≠
        ["", "--extensionDevelopmentPath=/ext", "--extensionTestsPath=/ext/out/test",
         "--locale=en"] := by
  refine ⟨rfl, by decide, by decide⟩

/-- C4 (amended): for every implicit request the built list is exactly the
workspace path (when given and non-empty; a given empty workspace path is
treated as absent), then `--extensionDevelopmentPath=`, then
`--extensionTestsPath=`, then `--locale=` (the given locale, falling back to
`en` when absent or empty), then the additional launch arguments in order. -/
theorem buildArgs_exact_order (o : TestOptions) :
    buildArgs o =
      (match o.testWorkspace with
       | some w => if w = "" then [] else [w]
       | none => []) ++
      (("--extensionDevelopmentPath=" ++ o.extensionPath) ::
       ("--extensionTestsPath=" ++ o.testRunnerPath) ::
       ("--locale=" ++ jsOr o.locale "en") ::
       o.additionalLaunchArgs.getD []) := by
  unfold buildArgs strFalsy
  cases hw : o.testWorkspace with
  | none => cases o.additionalLaunchArgs <;> simp
  | some w =>
    by_cases hwe : w = "" <;> cases o.additionalLaunchArgs <;> simp [hwe]

/-- C5: for every explicit request, the spawned process receives the
caller-supplied `launchArgs` verbatim — the implicit-variant argument
builder contributes nothing on this path. -/
theorem explicit_args_verbatim (download : Option String → String) (processEnv : JsObj)
    (o : ExplicitTestOptions) :
    ((runTests download processEnv (RunTestsOptions.explicit o)).2).args = o.launchArgs := by
  by_cases h : strFalsy o.vscodeExecutablePath <;> simp [runTests, innerRunTests, h]

/-- C10: a request whose `vscodeExecutablePath` is the empty string is falsy
to `if (!options.vscodeExecutablePath)`, so `runTests` asks the acquisition
collaborator with the request's version selector and spawns the returned
path instead of the empty string. -/
theorem empty_exe_path_uses_download (download : Option String → String) (processEnv : JsObj)
    (opts : RunTestsOptions) (h : exePath opts = some "") :
    ((runTests download processEnv opts).2).executable = download (versionOf opts) := by
  cases opts with
  | implicit o =>
    simp only [exePath] at h
    simp [runTests, innerRunTests, strFalsy, h, versionOf]
  | explicit o =>
    simp only [exePath] at h
    simp [runTests, innerRunTests, strFalsy, h, versionOf]

/-- Witness for C10: an explicit request with empty executable path and
version `1.32.0` spawns the path the collaborator returns for `1.32.0`. -/
theorem empty_exe_path_uses_download_witness :
    ((runTests download0 processEnv0 (RunTestsOptions.explicit exEmptyExe)).2).executable =
      download0 (some "1.32.0") :=
  empty_exe_path_uses_download download0 processEnv0 (RunTestsOptions.explicit exEmptyExe)
    (by decide)

/-! ### Claims about the environment merge (C6) -/

/-- C6 counterexample: the ambient environment maps `FOO` to `ambient` and
the caller-supplied environment has `FOO` present with value `undefined`.
`Object.assign` copies source properties even when their value is
`undefined`, so the merged environment maps `FOO` to `undefined` — the
ambient value is not preserved. -/
theorem env_merge_undef_counterexample :
    envFoo "FOO" = JsVal.str "ambient"
    ∧ overlayFooUndef "FOO" = JsVal.undef
    ∧ fullEnv envFoo (some overlayFooUndef) "FOO" = JsVal.undef
    ∧ fullEnv envFoo (some overlayFooUndef) "FOO" ≠ envFoo "FOO" := by
  refine ⟨by decide, by decide, by decide, by decide⟩

/-- C6 (amended): every key present in the caller-supplied environment —
including a key whose value is `undefined`, which overrides and replaces the
ambient value with `undefined` rather than preserving it — takes the
caller's value in the merged environment; every key absent from the
caller-supplied environment keeps its ambient value, and with no
caller-supplied environment the merge is the ambient environment. -/
theorem fullEnv_merge (processEnv caller : JsObj) (k : String) :
    (caller k ≠ JsVal.absent → fullEnv processEnv (some caller) k = caller k)
    ∧ (caller k = JsVal.absent → fullEnv processEnv (some caller) k = processEnv k)
    ∧ fullEnv processEnv none k = processEnv k := by
  refine ⟨?_, ?_, rfl⟩
  · intro h
    cases hc : caller k with
    | absent => exact absurd hc h
    | undef => simp [fullEnv, objectAssign, hc]
    | str s => simp [fullEnv, objectAssign, hc]
  · intro h
    simp [fullEnv, objectAssign, h]

/-- Witness for C6: the present (undefined-valued) `FOO` entry wins, and a
key the caller does not mention keeps its ambient slot. -/
theorem fullEnv_merge_witness :
    fullEnv envFoo (some overlayFooUndef) "FOO" = overlayFooUndef "FOO"
    ∧ fullEnv envFoo (some overlayFooUndef) "BAR" = envFoo "BAR" :=
  ⟨(fullEnv_merge envFoo overlayFooUndef "FOO").1 (by decide),
   (fullEnv_merge envFoo overlayFooUndef "BAR").2.1 (by decide)⟩

/-! ### Claims about mutation of the caller's options (C7) -/

/-- C7 counterexample: when no executable path is supplied, `runTests`
assigns the downloaded path to the caller's `vscodeExecutablePath` field
(line 128), so a field of the caller's options object changes. -/
theorem runTests_mutates_options_counterexample :
    exePath (RunTestsOptions.implicit exNoExe) = none
    ∧ exePath ((runTests download0 processEnv0 (RunTestsOptions.implicit exNoExe)).1) =
        some "/vscache/stable"
    ∧ exePath ((runTests download0 processEnv0 (RunTestsOptions.implicit exNoExe)).1) ≠
        exePath (RunTestsOptions.implicit exNoExe) := by
  refine ⟨rfl, by decide, by decide⟩

/-- C7 (amended): `runTests` mutates the caller's options at most in
`vscodeExecutablePath` (overwritten with the acquired path when it was
absent or empty); every other field is unchanged, and when the field was
present and non-empty the whole object is unchanged. -/
theorem runTests_readonly_except_exePath (download : Option String → String)
    (processEnv : JsObj) (opts : RunTestsOptions) :
    eraseExePath ((runTests download processEnv opts).1) = eraseExePath opts
    ∧ (strFalsy (exePath opts) = false → (runTests download processEnv opts).1 = opts) := by
  cases opts with
  | implicit o =>
    constructor
    · by_cases h : strFalsy o.vscodeExecutablePath <;> simp [runTests, eraseExePath, h]
    · intro h
      simp only [exePath] at h
      simp [runTests, h]
  | explicit o =>
    constructor
    · by_cases h : strFalsy o.vscodeExecutablePath <;> simp [runTests, eraseExePath, h]
    · intro h
      simp only [exePath] at h
      simp [runTests, h]

/-- Witness for C7: with a non-empty executable path supplied, the caller's
options object comes back unchanged. -/
theorem runTests_readonly_except_exePath_witness :
    (runTests download0 processEnv0 (RunTestsOptions.explicit exWithExe)).1 =
      RunTestsOptions.explicit exWithExe :=
  (runTests_readonly_except_exePath download0 processEnv0
      (RunTestsOptions.explicit exWithExe)).2 (by decide)

/-! ### Claims about the output filter (C8) -/

/-- C8 counterexample: the handler suppresses any chunk that *contains*
`update#setState idle`, not only the chunk exactly equal to the marker
line: a chunk with extra leading text is not equal to the marker line yet
is still suppressed. -/
theorem stdout_filter_counterexample :
    stdoutLog "update#setState idle\n" = none
    ∧ "noise update#setState idle\n" ≠ "update#setState idle\n"
    ∧ stdoutLog "noise update#setState idle\n" = none := by
  refine ⟨by decide, by decide, by decide⟩

/-- C8 (amended): a stdout chunk is suppressed from the log sink exactly
when it contains the substring `update#setState idle` (in particular the
chunk equal to `update#setState idle\n` is suppressed); every chunk not
containing that substring is forwarded verbatim. -/
theorem stdoutLog_filter (s : String) :
    (stdoutLog s = none ↔ jsIncludes s "update#setState idle" = true)
    ∧ (jsIncludes s "update#setState idle" = false → stdoutLog s = some s) := by
  by_cases h : jsIncludes s "update#setState idle" <;> simp [stdoutLog, h]

/-- Witness for C8: an ordinary chunk is forwarded verbatim. -/
theorem stdoutLog_filter_witness :
    stdoutLog "All tests passed\n" = some "All tests passed\n" :=
  (stdoutLog_filter "All tests passed\n").2 (by decide)

end VSTest
